import Mathlib

/-!
Verification of the chat routing and session-orchestration layer of the
NoMoreTears backend (backend/app.py) against its natural-language
specification. The Python handlers are shallowly embedded as pure Lean
functions: MongoDB collections become lists of documents, the in-memory
session dictionaries become association lists, wall-clock timestamps become
naturals supplied by the caller, and the external Backboard client becomes an
oracle record whose add_message call may fail. Each endpoint of interest
(backboard_chat, list_chat_sessions, create_chat_session,
delete_chat_session, get_chat_history) is translated line by line from the
source; theorems below settle the frozen claims about them.
-/

namespace NoMoreTears

/-- Python str.lower for the ASCII strings this backend handles: lowercases
every character of the string. -/
def pyLower (s : String) : String := String.mk (s.data.map Char.toLower)

/-- Python str.strip for the ASCII strings this backend handles: drops
whitespace from both ends of the string. -/
def pyStrip (s : String) : String :=
  String.mk (((s.data.dropWhile Char.isWhitespace).reverse.dropWhile
    Char.isWhitespace).reverse)

/-- Python truthiness of an optional string value: None and the empty string
are falsy, every other string is truthy. -/
def truthyOpt : Option String → Bool
  | none => false
  | some s => !(s == "")

/-- Python `a or d` where a is an optional string and d a string default:
the first truthy value wins. -/
def pyOr (a : Option String) (d : String) : String :=
  match a with
  | none => d
  | some s => if s = "" then d else s

/-- Python `a or b` where both operands are optional strings. -/
def pyOrOpt (a b : Option String) : Option String :=
  match a with
  | none => b
  | some s => if s = "" then b else some s

/-- Embeds resolve_chat_role (backend/app.py lines 85-89):
`role = (value or "student").strip().lower()`, then any role outside
the set of "student" and "instructor" is coerced to "student". -/
def resolve_chat_role (value : Option String) : String :=
  let role := pyLower (pyStrip (pyOr value "student"))
  if ¬ (role = "student" ∨ role = "instructor") then "student" else role

/-- The two per-role chat namespaces (the databases no-more-tears-student and
no-more-tears-instructor selected by get_chat_db). -/
inductive RoleNamespace
  | student
  | instructor
deriving Repr, DecidableEq

/-- Embeds get_chat_db (backend/app.py lines 91-95): resolves the role and
selects the corresponding chat namespace; everything that is not exactly the
instructor role goes to the student namespace. -/
def get_chat_db_role (user_role : Option String) : RoleNamespace × String :=
  let role := resolve_chat_role user_role
  if role = "instructor" then (RoleNamespace.instructor, role)
  else (RoleNamespace.student, role)

/-- The routing configuration returned by get_routing_config, with the field
names used by backboard_chat (app.py lines 136-138, 152-169). -/
structure RoutingConfig where
  DEFAULT_PROVIDER : String
  DEFAULT_MODEL : String
  FAST_PROVIDER : String
  FAST_MODEL : String
  LOGIC_PROVIDER : String
  LOGIC_MODEL : String
deriving Repr, DecidableEq

/-- The allow-list returned by get_allowed_llms: a mapping from provider name
to the list of permitted model names, represented as an association list. -/
def AllowList := List (String × List String)

/-- Lookup of a provider entry in the allow-list. -/
def allowedModels (allowed : AllowList) (provider : String) : Option (List String) :=
  (allowed.find? (fun e => e.1 == provider)).map (fun e => e.2)

/-- Membership test mirroring `provider in allowed and model in allowed[provider]`
(app.py line 191). -/
def allowedPair (allowed : AllowList) (provider model : String) : Bool :=
  match allowedModels allowed provider with
  | none => false
  | some ms => ms.contains model

/-- The JSON body fields of a chat request that backboard_chat reads
(absent keys are None). -/
structure ChatRequestData where
  user_id : Option String := none
  user_role : Option String := none
  role : Option String := none
  session_id : Option String := none
  title : Option String := none
  video_title : Option String := none
  lecture_id : Option String := none
  provider : Option String := none
  model : Option String := none
  route_mode : Option String := none
  route_preset : Option String := none
  message : Option String := none
deriving Repr, DecidableEq

/-- The context dictionary passed to route_llm_for_message
(app.py lines 173-178). -/
structure RouteContext where
  lecture_id : Option String
  video_title : Option String
  title : Option String
  session_id : String
deriving Repr, DecidableEq

/-- Embeds the preset-choice check of app.py lines 140-142: a route_preset
outside the five known values is coerced to "auto". -/
def coercePreset (p : String) : String :=
  if p = "auto" ∨ p = "fastest" ∨ p = "logical" ∨ p = "everyday" ∨ p = "artistic"
  then p else "auto"

/-- Embeds the provider/model selection chain of backboard_chat
(app.py lines 144-179). The auto-routing heuristic route_llm_for_message
lives in the absent services/chat_router.py module and is passed in as an
oracle; the preceding branches are translated verbatim, including the
`.strip().lower()` normalization of a manually requested provider and the
`.strip()` of a manually requested model. -/
def selectRoute (cfg : RoutingConfig)
    (heuristic : String → RouteContext → String × String × String)
    (route_mode route_preset : String)
    (requested_provider requested_model : Option String)
    (user_message : String) (ctx : RouteContext) : String × String × String :=
  if route_mode = "manual" ∧ truthyOpt requested_provider ∧ truthyOpt requested_model then
    (pyLower (pyStrip (requested_provider.getD "")), pyStrip (requested_model.getD ""),
      "bucket=manual")
  else if route_preset = "fastest" then
    (cfg.FAST_PROVIDER, cfg.FAST_MODEL, "bucket=fast_preset")
  else if route_preset = "logical" then
    (cfg.LOGIC_PROVIDER, cfg.LOGIC_MODEL, "bucket=logical_preset")
  else if route_preset = "everyday" ∨ route_preset = "artistic" then
    (cfg.DEFAULT_PROVIDER, cfg.DEFAULT_MODEL, "bucket=" ++ route_preset ++ "_preset")
  else
    heuristic user_message ctx

/-- Embeds the route_mode/route_preset normalization of app.py lines 131-142
followed by the selection chain: both fields default to "auto", are stripped
and lowercased, and an unknown preset is coerced to "auto". -/
def routeSelect (cfg : RoutingConfig)
    (heuristic : String → RouteContext → String × String × String)
    (data : ChatRequestData) (session_id : String) : String × String × String :=
  let route_mode := pyLower (pyStrip (pyOr data.route_mode "auto"))
  let route_preset := coercePreset (pyLower (pyStrip (pyOr data.route_preset "auto")))
  selectRoute cfg heuristic route_mode route_preset data.provider data.model
    (data.message.getD "")
    { lecture_id := data.lecture_id, video_title := data.video_title,
      title := data.title, session_id := session_id }

/-- Modelled from the spec: services/chat_router.py, which backend/app.py
imports for validate_llm_choice, is not present in the repository snapshot.
Spec 4.2 describes the function: "After selection, Validate(provider, model)
checks membership in the Allow-List; on failure, substitutes
(default_provider, default_model) and appends ;fallback_reason=<why> to
reason." The third component is the fallback note (None when the pair was
allow-listed); backboard_chat joins it to the reason with a semicolon. -/
def validate_llm_choice (provider model : String) (allowed : AllowList)
    (fallback_provider fallback_model : String) : String × String × Option String :=
  if allowedPair allowed provider model then (provider, model, none)
  else (fallback_provider, fallback_model,
    some ("fallback_reason=unsupported " ++ provider ++ ":" ++ model))

/-- Embeds the reason augmentation of app.py lines 188-189: a present
fallback note is appended to the route reason after a semicolon. -/
def applyNote (reason : String) (note : Option String) : String :=
  match note with
  | none => reason
  | some n => reason ++ ";" ++ n

/-- Oracle model of the external BackboardClient as used by run_chat: fresh
assistant/thread identifiers returned by create_assistant/create_thread, and
the add_message call, keyed by (thread_id, content, provider, model), which
may fail. -/
structure AssistantClient (ε : Type) where
  new_assistant_id : String
  new_thread_id : String
  add_message : String → String → String → String → Except ε String

/-- Embeds the handle resolution at the top of run_chat (app.py lines
231-241): when either cached handle is falsy, both an assistant and a thread
are freshly provisioned as a unit. -/
def resolve_handles (client : AssistantClient ε) (assistant_id thread_id : Option String) :
    String × String :=
  if truthyOpt assistant_id ∧ truthyOpt thread_id then
    (assistant_id.getD "", thread_id.getD "")
  else
    (client.new_assistant_id, client.new_thread_id)

/-- Embeds run_chat (app.py lines 228-294): one add_message call with the
routed pair; on failure, if the routed pair already equals the default pair
the error is re-raised, otherwise exactly one retry with the default pair is
made and, on success, the reason is augmented with
";runtime_fallback_from=provider:model". The second component records the
(provider, model) pair of every add_message call, in call order, so the
retry policy can be audited. -/
def run_chat (client : AssistantClient ε) (default_provider default_model : String)
    (provider model route_reason user_message : String)
    (assistant_id thread_id : Option String) :
    Except ε (String × String × String × String × String × String) × List (String × String) :=
  let ids := resolve_handles client assistant_id thread_id
  match client.add_message ids.2 user_message provider model with
  | Except.ok resp =>
    (Except.ok (ids.1, ids.2, resp, provider, model, route_reason), [(provider, model)])
  | Except.error e =>
    if provider = default_provider ∧ model = default_model then
      (Except.error e, [(provider, model)])
    else
      match client.add_message ids.2 user_message default_provider default_model with
      | Except.ok resp =>
        (Except.ok (ids.1, ids.2, resp, default_provider, default_model,
          route_reason ++ ";runtime_fallback_from=" ++ provider ++ ":" ++ model),
         [(provider, model), (default_provider, default_model)])
      | Except.error e2 =>
        (Except.error e2, [(provider, model), (default_provider, default_model)])

/-- A document of the chat_sessions collection, also used for the in-memory
session store. The handles and created_at are optional: explicit session
creation stores None handles, the Mongo upsert sets created_at only on
insert, and the in-memory per-turn write carries no created_at key at all.
user_role is optional because the per-turn Mongo upsert document does not
set it. -/
structure SessionDoc where
  user_id : String
  user_role : Option String
  session_id : String
  title : String
  created_at : Option Nat
  updated_at : Nat
  assistant_id : Option String
  thread_id : Option String
deriving Repr, DecidableEq

/-- A document of the chat_messages collection (user and assistant turns);
response_time_ms and the handle fields are set only on assistant messages. -/
structure MessageDoc where
  user_id : String
  user_role : String
  session_id : String
  role : String
  content : String
  provider : String
  model : String
  requested_provider : Option String
  requested_model : Option String
  route_mode : String
  route_preset : String
  route_reason : String
  response_time_ms : Option Nat
  assistant_id : Option String
  thread_id : Option String
  timestamp : Nat
deriving Repr, DecidableEq

/-- One per-role chat database, holding the chat_sessions and chat_messages
collections as lists in insertion order. -/
structure ChatDb where
  chat_sessions : List SessionDoc
  chat_messages : List MessageDoc
deriving Repr, DecidableEq

/-- The two per-role chat databases available when MongoDB is configured. -/
structure MongoState where
  student : ChatDb
  instructor : ChatDb
deriving Repr, DecidableEq

/-- The in-memory fallback store: role, then session_id, to session document,
as association lists preserving insertion order like Python dicts. -/
abbrev MemStore := List (String × List (String × SessionDoc))

/-- The storage state of the process: either MongoDB is configured, and then
the main db and both chat databases are all available, or it is not and only
the in-memory session store is used. This all-or-nothing shape mirrors the
Mongo init block of app.py lines 56-83, which sets db, chat_db_student and
chat_db_instructor together. -/
structure AppState where
  mongo : Option MongoState
  memory : MemStore
deriving Repr, DecidableEq

/-- Lookup in an association list (Python dict get): first binding wins. -/
def alistGet (m : List (String × α)) (k : String) : Option α :=
  (m.find? (fun e => e.1 == k)).map (fun e => e.2)

/-- Insertion into an association list (Python dict setitem): an existing key
keeps its position and gets the new value, a new key is appended at the end. -/
def alistSet (m : List (String × α)) (k : String) (v : α) : List (String × α) :=
  match m with
  | [] => [(k, v)]
  | e :: rest => if e.1 == k then (k, v) :: rest else e :: alistSet rest k v

/-- Deletion from an association list (Python dict pop). -/
def alistDel (m : List (String × α)) (k : String) : List (String × α) :=
  m.filter (fun e => !(e.1 == k))

/-- Python in_memory_sessions.get(role, {}).get(session_id). -/
def memGet (mem : MemStore) (role session_id : String) : Option SessionDoc :=
  match alistGet mem role with
  | none => none
  | some m => alistGet m session_id

/-- Python in_memory_sessions.setdefault(role, {})[session_id] = doc. -/
def memSet (mem : MemStore) (role session_id : String) (doc : SessionDoc) : MemStore :=
  alistSet mem role (alistSet ((alistGet mem role).getD []) session_id doc)

/-- Python in_memory_sessions.get(user_role, {}).pop(session_id, None):
popping under an absent role touches a fresh empty dict, not the store. -/
def memDel (mem : MemStore) (role session_id : String) : MemStore :=
  match alistGet mem role with
  | none => mem
  | some m => alistSet mem role (alistDel m session_id)

/-- The filter document used by the session queries of app.py:
user_id and session_id both match. -/
def sessionMatches (user_id session_id : String) (s : SessionDoc) : Bool :=
  s.user_id == user_id && s.session_id == session_id

/-- The filter document used by delete_many on chat_messages. -/
def messageMatches (user_id session_id : String) (m : MessageDoc) : Bool :=
  m.user_id == user_id && m.session_id == session_id

/-- Mongo find_one on chat_sessions with the (user_id, session_id) filter:
the first matching document. -/
def findSessionDoc (sessions : List SessionDoc) (user_id session_id : String) :
    Option SessionDoc :=
  sessions.find? (sessionMatches user_id session_id)

/-- Updates the first element satisfying p, leaving the rest unchanged
(Mongo update_one). -/
def updateFirst (p : α → Bool) (f : α → α) : List α → List α
  | [] => []
  | a :: l => if p a then f a :: l else a :: updateFirst p f l

/-- Removes the first element satisfying p (Mongo delete_one); none when no
element matched, which Mongo reports as deleted_count == 0. -/
def deleteFirst (p : α → Bool) : List α → Option (List α)
  | [] => none
  | a :: l => if p a then some l else (deleteFirst p l).map (fun l2 => a :: l2)

/-- The $set fields applied by the per-turn upsert to a matched session
document (app.py lines 351-357). -/
def upsertSet (now : Nat) (title : String) (aid tid : Option String)
    (s : SessionDoc) : SessionDoc :=
  { s with
    updated_at := now
    title := title
    assistant_id := aid
    thread_id := tid }

/-- The document inserted by the per-turn upsert when no session matched:
the filter fields, the $setOnInsert created_at and the $set fields. -/
def insertedSessionDoc (user_id session_id : String) (now : Nat) (title : String)
    (aid tid : Option String) : SessionDoc :=
  { user_id := user_id
    user_role := none
    session_id := session_id
    title := title
    created_at := some now
    updated_at := now
    assistant_id := aid
    thread_id := tid }

/-- Mongo update_one with upsert=True on the (user_id, session_id) filter as
issued at app.py lines 345-361: a matching document gets updated_at, title
and both handles replaced by $set; otherwise a new document made of the
filter fields, the $setOnInsert created_at and the $set fields is inserted. -/
def mongoUpsertSession (sessions : List SessionDoc) (user_id session_id : String)
    (now : Nat) (title : String) (aid tid : Option String) : List SessionDoc :=
  if (findSessionDoc sessions user_id session_id).isSome then
    updateFirst (sessionMatches user_id session_id) (upsertSet now title aid tid)
      sessions
  else
    sessions ++ [insertedSessionDoc user_id session_id now title aid tid]

/-- Embeds the session persistence of the Mongo branch of backboard_chat
(app.py lines 344-361): resolved_title is existing_title or session_title,
then the upsert runs with it. The existing title is read from chat_sessions;
in the handler this read happens at the top of the request (line 196) with
no session write in between, so folding it into the upsert is
observationally identical. -/
def upsert_session_mongo (sessions : List SessionDoc) (user_id session_id : String)
    (session_title : String) (now : Nat) (aid tid : Option String) :
    List SessionDoc :=
  let existing_title := (findSessionDoc sessions user_id session_id).map
    (fun s => s.title)
  let resolved_title := pyOr existing_title session_title
  mongoUpsertSession sessions user_id session_id now resolved_title aid tid

/-- The in-memory session document written by the per-turn store
(app.py lines 383-391); it carries no created_at key. -/
def memSessionDoc (user_role user_id session_id title : String) (now : Nat)
    (aid tid : Option String) : SessionDoc :=
  { user_id := user_id
    user_role := some user_role
    session_id := session_id
    title := title
    created_at := none
    updated_at := now
    assistant_id := aid
    thread_id := tid }

/-- Embeds the session persistence of the in-memory branch of backboard_chat
(app.py lines 382-391): the whole session document is replaced; its title is
existing_title or session_title, where the existing title comes from the
lookup of lines 201-203, which also requires the stored user_id to match;
the replacement document carries no created_at. -/
def store_session_memory (mem : MemStore) (user_role user_id session_id : String)
    (session_title : String) (now : Nat) (aid tid : Option String) : MemStore :=
  let existing :=
    match memGet mem user_role session_id with
    | some c => if c.user_id == user_id then some c else none
    | none => none
  let title := pyOr (existing.map (fun s => s.title)) session_title
  memSet mem user_role session_id
    (memSessionDoc user_role user_id session_id title now aid tid)

/-- Sessions ordered by updated_at descending: the sort key of ListSessions. -/
def updatedDesc (a b : SessionDoc) : Prop := b.updated_at ≤ a.updated_at

instance : DecidableRel updatedDesc :=
  fun a b => Nat.decLe b.updated_at a.updated_at

instance : IsTotal SessionDoc updatedDesc :=
  ⟨fun a b => Nat.le_total b.updated_at a.updated_at⟩

instance : IsTrans SessionDoc updatedDesc :=
  ⟨fun _ _ _ h1 h2 => Nat.le_trans h2 h1⟩

/-- The session summary shape returned by the in-memory branch of
list_chat_sessions (app.py lines 412-420). -/
structure SessionSummary where
  session_id : String
  title : String
  updated_at : Nat
deriving Repr, DecidableEq

/-- Summaries ordered by updated_at descending. -/
def summaryUpdatedDesc (a b : SessionSummary) : Prop := b.updated_at ≤ a.updated_at

instance : DecidableRel summaryUpdatedDesc :=
  fun a b => Nat.decLe b.updated_at a.updated_at

instance : IsTotal SessionSummary summaryUpdatedDesc :=
  ⟨fun a b => Nat.le_total b.updated_at a.updated_at⟩

instance : IsTrans SessionSummary summaryUpdatedDesc :=
  ⟨fun _ _ _ h1 h2 => Nat.le_trans h2 h1⟩

/-- Messages ordered by timestamp descending, the Mongo query order of
get_chat_history. -/
def timestampDesc (a b : MessageDoc) : Prop := b.timestamp ≤ a.timestamp

instance : DecidableRel timestampDesc :=
  fun a b => Nat.decLe b.timestamp a.timestamp

instance : IsTotal MessageDoc timestampDesc :=
  ⟨fun a b => Nat.le_total b.timestamp a.timestamp⟩

instance : IsTrans MessageDoc timestampDesc :=
  ⟨fun _ _ _ h1 h2 => Nat.le_trans h2 h1⟩

/-- Messages ordered by timestamp ascending, the order of a returned page. -/
def timestampAsc (a b : MessageDoc) : Prop := a.timestamp ≤ b.timestamp

/-- Mongo cursor.limit semantics: a limit of 0 means no limit, a positive
limit caps the number of returned documents. -/
def mongoLimit (n : Nat) (l : List α) : List α :=
  if n = 0 then l else l.take n

/-- Selects the per-role chat database of a configured MongoState. -/
def roleDb (ms : MongoState) (role : String) : ChatDb :=
  if role = "instructor" then ms.instructor else ms.student

/-- Replaces the per-role chat database of a configured MongoState. -/
def setRoleDb (ms : MongoState) (role : String) (db : ChatDb) : MongoState :=
  if role = "instructor" then { ms with instructor := db }
  else { ms with student := db }

/-- The chat_messages collection of the role database, or the empty list when
MongoDB is not configured (the in-memory mode stores no messages). -/
def stateMessages (st : AppState) (role : String) : List MessageDoc :=
  match st.mongo with
  | some ms => (roleDb ms role).chat_messages
  | none => []

/-- The chat_sessions collection of the role database, when configured. -/
def stateDb (st : AppState) (role : String) : Option ChatDb :=
  st.mongo.map (fun ms => roleDb ms role)

/-- Embeds the Mongo branch of list_chat_sessions (app.py lines 424-428):
find by user_id, sort by updated_at descending, limit 50. -/
def list_sessions_mongo (db : ChatDb) (user_id : String) : List SessionDoc :=
  mongoLimit 50 (List.insertionSort updatedDesc
    (db.chat_sessions.filter (fun s => s.user_id == user_id)))

/-- The summaries of the user's in-memory sessions under a role, in store
order (the comprehension of app.py lines 412-420). -/
def memUserSummaries (mem : MemStore) (user_role user_id : String) :
    List SessionSummary :=
  ((alistGet mem user_role).getD []).filterMap (fun e =>
    if e.2.user_id == user_id then
      some { session_id := e.2.session_id, title := e.2.title,
             updated_at := e.2.updated_at }
    else none)

/-- Embeds the in-memory branch of list_chat_sessions (app.py lines 411-422):
the user's session summaries sorted by updated_at descending; no limit is
applied in this branch. -/
def list_sessions_memory (mem : MemStore) (user_role user_id : String) :
    List SessionSummary :=
  List.insertionSort summaryUpdatedDesc (memUserSummaries mem user_role user_id)

/-- The reply shape of list_chat_sessions: full documents from Mongo,
summaries from the in-memory store. -/
inductive SessionsReply
  | fromMongo (sessions : List SessionDoc)
  | fromMemory (sessions : List SessionSummary)
deriving Repr, DecidableEq

/-- Embeds list_chat_sessions (app.py lines 405-429). -/
def list_chat_sessions (st : AppState) (user_id : String)
    (roleParam : Option String) : SessionsReply :=
  let role := resolve_chat_role roleParam
  match st.mongo with
  | none => SessionsReply.fromMemory (list_sessions_memory st.memory role user_id)
  | some ms => SessionsReply.fromMongo (list_sessions_mongo (roleDb ms role) user_id)

/-- Result of create_chat_session. -/
inductive CreateResult
  | missingUserId
  | created (doc : SessionDoc)
deriving Repr, DecidableEq

/-- Embeds create_chat_session (app.py lines 431-468): the title defaults
through title, video_title and lecture_id to "New chat", which is then
replaced by "Untitled"; the new document carries created_at, updated_at and
absent (None) assistant/thread handles, and is inserted into chat_sessions
or the in-memory store depending on availability. -/
def create_chat_session (st : AppState) (fresh_session_id : String) (now : Nat)
    (body : ChatRequestData) : CreateResult × AppState :=
  if ¬ truthyOpt body.user_id then (CreateResult.missingUserId, st)
  else
    let user_id := body.user_id.getD ""
    let user_role := resolve_chat_role (pyOrOpt body.user_role body.role)
    let title0 := pyOr body.title (pyOr body.video_title (pyOr body.lecture_id "New chat"))
    let title := if title0 = "New chat" then "Untitled" else title0
    let doc : SessionDoc :=
      { user_id := user_id, user_role := some user_role,
        session_id := fresh_session_id, title := title,
        created_at := some now, updated_at := now,
        assistant_id := none, thread_id := none }
    match st.mongo with
    | some ms =>
      let db := roleDb ms user_role
      (CreateResult.created doc,
        { st with mongo := some (setRoleDb ms user_role
            { db with chat_sessions := db.chat_sessions ++ [doc] }) })
    | none =>
      (CreateResult.created doc,
        { st with memory := memSet st.memory user_role fresh_session_id doc })

/-- Result of delete_chat_session. -/
inductive DeleteResult
  | missingParams
  | notFound
  | deleted (session_id : String)
deriving Repr, DecidableEq

/-- Embeds delete_chat_session (app.py lines 470-493): in-memory, the session
is looked up under the role, must belong to the user, and is popped; with
Mongo, delete_one removes the first matching session (not-found when
deleted_count is 0) and delete_many then removes all of its messages. -/
def delete_chat_session (st : AppState) (roleParam : Option String)
    (user_id session_id : String) : DeleteResult × AppState :=
  if user_id = "" ∨ session_id = "" then (DeleteResult.missingParams, st)
  else
    let role := resolve_chat_role roleParam
    match st.mongo with
    | none =>
      match memGet st.memory role session_id with
      | none => (DeleteResult.notFound, st)
      | some c =>
        if c.user_id == user_id then
          (DeleteResult.deleted session_id,
            { st with memory := memDel st.memory role session_id })
        else (DeleteResult.notFound, st)
    | some ms =>
      let db := roleDb ms role
      match deleteFirst (sessionMatches user_id session_id) db.chat_sessions with
      | none => (DeleteResult.notFound, st)
      | some sessions2 =>
        (DeleteResult.deleted session_id,
          { st with mongo := some (setRoleDb ms role
              { chat_sessions := sessions2,
                chat_messages := db.chat_messages.filter (fun m =>
                  !(messageMatches user_id session_id m)) }) })

/-- The message query of get_chat_history (app.py lines 509-516): by user_id
and, when a truthy session_id is given, also by session_id. -/
def historyQuery (db : ChatDb) (user_id : String) (session_id : Option String) :
    List MessageDoc :=
  db.chat_messages.filter (fun m =>
    m.user_id == user_id &&
      (if truthyOpt session_id then m.session_id == session_id.getD "" else true))

/-- Embeds the Mongo page computation of get_chat_history (app.py lines
513-518): sort by timestamp descending, skip, limit (Mongo limit-0 meaning
no limit), then reverse so the returned page is oldest first. -/
def history_page (db : ChatDb) (user_id : String) (session_id : Option String)
    (limit skip : Nat) : List MessageDoc :=
  (mongoLimit limit
    ((List.insertionSort timestampDesc (historyQuery db user_id session_id)).drop
      skip)).reverse

/-- Reply of get_chat_history. -/
inductive HistoryReply
  | mongoNotConfigured
  | messages (msgs : List MessageDoc)
deriving Repr, DecidableEq

/-- Embeds get_chat_history (app.py lines 495-525): requires Mongo (the
in-memory mode stores no messages and answers with an error). -/
def get_chat_history (st : AppState) (roleParam : Option String)
    (user_id : String) (session_id : Option String) (limit skip : Nat) :
    HistoryReply :=
  let role := resolve_chat_role roleParam
  match st.mongo with
  | none => HistoryReply.mongoNotConfigured
  | some ms => HistoryReply.messages (history_page (roleDb ms role) user_id session_id limit skip)

/-- The resolved role of a chat request body: user_role, falling back to
role, resolved (app.py line 113). -/
def turnUserRole (data : ChatRequestData) : String :=
  resolve_chat_role (pyOrOpt data.user_role data.role)

/-- The session_id of a chat turn: the supplied one, or the fresh uuid
(app.py line 116). -/
def turnSessionId (data : ChatRequestData) (fresh_session_id : String) : String :=
  pyOr data.session_id fresh_session_id

/-- The session title of a chat turn (app.py lines 117-122). -/
def turnSessionTitle (data : ChatRequestData) : String :=
  pyOr data.title (pyOr data.video_title (pyOr data.lecture_id "Untitled"))

/-- The normalized route_mode of a chat turn (app.py line 131). -/
def turnRouteMode (data : ChatRequestData) : String :=
  pyLower (pyStrip (pyOr data.route_mode "auto"))

/-- The normalized and coerced route_preset of a chat turn
(app.py lines 132, 140-142). -/
def turnRoutePreset (data : ChatRequestData) : String :=
  coercePreset (pyLower (pyStrip (pyOr data.route_preset "auto")))

/-- The validated (provider, model, reason) triple of a chat turn: the
selection chain followed by allow-list validation with the reason note
appended (app.py lines 144-189). -/
def turnChoice (cfg : RoutingConfig) (allowed : AllowList)
    (heuristic : String → RouteContext → String × String × String)
    (data : ChatRequestData) (fresh_session_id : String) :
    String × String × String :=
  let sel := selectRoute cfg heuristic (turnRouteMode data) (turnRoutePreset data)
    data.provider data.model (data.message.getD "")
    { lecture_id := data.lecture_id, video_title := data.video_title,
      title := data.title, session_id := turnSessionId data fresh_session_id }
  let val := validate_llm_choice sel.1 sel.2.1 allowed
    cfg.DEFAULT_PROVIDER cfg.DEFAULT_MODEL
  (val.1, val.2.1, applyNote sel.2.2 val.2.2)

/-- The user message document persisted by the turn before the external call
(app.py lines 211-226). -/
def turnUserMsg (cfg : RoutingConfig) (allowed : AllowList)
    (heuristic : String → RouteContext → String × String × String)
    (data : ChatRequestData) (fresh_session_id : String) (now : Nat) :
    MessageDoc :=
  let choice := turnChoice cfg allowed heuristic data fresh_session_id
  { user_id := data.user_id.getD "", user_role := turnUserRole data,
    session_id := turnSessionId data fresh_session_id, role := "user",
    content := data.message.getD "", provider := choice.1, model := choice.2.1,
    requested_provider := data.provider, requested_model := data.model,
    route_mode := turnRouteMode data, route_preset := turnRoutePreset data,
    route_reason := choice.2.2, response_time_ms := none,
    assistant_id := none, thread_id := none, timestamp := now }

/-- One entry of a turn's audit trace, in program order. -/
inductive TurnEvent
  | insertUserMsg (doc : MessageDoc)
  | externalCall (provider model : String)
  | sessionWrite (session_id : String)
  | insertAssistantMsg (doc : MessageDoc)
deriving Repr, DecidableEq

/-- Whether a trace event is the insertion of a user message. -/
def isUserInsert : TurnEvent → Bool
  | TurnEvent.insertUserMsg _ => true
  | _ => false

/-- The HTTP-level outcome of a chat turn. -/
inductive TurnResult (ε : Type)
  | missingUserId
  | missingApiKey
  | unsupportedPair
  | upstreamError (e : ε)
  | success (response session_id assistant_id thread_id provider model
      route_reason : String) (response_time_ms : Nat) (route_preset : String)
deriving Repr, DecidableEq

/-- The assistant message document persisted after a successful external
call (app.py lines 364-381). -/
def turnAssistantMsg (cfg : RoutingConfig) (allowed : AllowList)
    (heuristic : String → RouteContext → String × String × String)
    (data : ChatRequestData) (fresh_session_id : String) (now2 latency : Nat)
    (ra rt ai_response used_provider used_model used_reason : String) :
    MessageDoc :=
  { user_id := data.user_id.getD ""
    user_role := turnUserRole data
    session_id := turnSessionId data fresh_session_id
    role := "assistant"
    content := ai_response
    provider := used_provider
    model := used_model
    requested_provider := data.provider
    requested_model := data.model
    route_mode := turnRouteMode data
    route_preset := turnRoutePreset data
    route_reason := used_reason
    response_time_ms := some latency
    assistant_id := some ra
    thread_id := some rt
    timestamp := now2 }

/-- The body of a chat turn when MongoDB is configured (app.py lines 194-381
with all three availability checks true, since db, chat_db_student and
chat_db_instructor are set together): read the cached session, insert the
user message, run the external call through the fallback policy, and on
success upsert the session and insert the assistant message. -/
def mongoChatTurn {ε : Type} (cfg : RoutingConfig) (allowed : AllowList)
    (heuristic : String → RouteContext → String × String × String)
    (client : AssistantClient ε) (fresh_session_id : String)
    (now now2 latency : Nat) (ms : MongoState) (memo : MemStore)
    (data : ChatRequestData) : TurnResult ε × AppState × List TurnEvent :=
  let user_id := data.user_id.getD ""
  let user_role := turnUserRole data
  let session_id := turnSessionId data fresh_session_id
  let choice := turnChoice cfg allowed heuristic data fresh_session_id
  let db := roleDb ms user_role
  let existing_session := findSessionDoc db.chat_sessions user_id session_id
  let userMsg := turnUserMsg cfg allowed heuristic data fresh_session_id now
  let db1 := { db with chat_messages := db.chat_messages ++ [userMsg] }
  let rc := run_chat client cfg.DEFAULT_PROVIDER cfg.DEFAULT_MODEL choice.1
    choice.2.1 choice.2.2 (data.message.getD "")
    (existing_session.bind (fun s => s.assistant_id))
    (existing_session.bind (fun s => s.thread_id))
  let callEvents := rc.2.map (fun pm => TurnEvent.externalCall pm.1 pm.2)
  match rc.1 with
  | Except.error e =>
    (TurnResult.upstreamError e,
      { mongo := some (setRoleDb ms user_role db1), memory := memo },
      TurnEvent.insertUserMsg userMsg :: callEvents)
  | Except.ok out =>
    let ra := out.1
    let rt := out.2.1
    let asstMsg := turnAssistantMsg cfg allowed heuristic data fresh_session_id
      now2 latency ra rt out.2.2.1 out.2.2.2.1 out.2.2.2.2.1 out.2.2.2.2.2
    let db2 :=
      { db1 with
        chat_sessions :=
          upsert_session_mongo db1.chat_sessions user_id session_id
            (turnSessionTitle data) now (some ra) (some rt) }
    let db3 := { db2 with chat_messages := db2.chat_messages ++ [asstMsg] }
    (TurnResult.success out.2.2.1 session_id ra rt out.2.2.2.1
        out.2.2.2.2.1 out.2.2.2.2.2 latency (turnRoutePreset data),
      { mongo := some (setRoleDb ms user_role db3), memory := memo },
      TurnEvent.insertUserMsg userMsg :: callEvents ++
        [TurnEvent.sessionWrite session_id,
         TurnEvent.insertAssistantMsg asstMsg])

/-- The body of a chat turn when MongoDB is not configured (app.py lines
194-403 with the availability checks false): no message is persisted at all;
on success only the in-memory session document is replaced. -/
def memChatTurn {ε : Type} (cfg : RoutingConfig) (allowed : AllowList)
    (heuristic : String → RouteContext → String × String × String)
    (client : AssistantClient ε) (fresh_session_id : String)
    (now now2 latency : Nat) (memo : MemStore)
    (data : ChatRequestData) : TurnResult ε × AppState × List TurnEvent :=
  let user_id := data.user_id.getD ""
  let user_role := turnUserRole data
  let session_id := turnSessionId data fresh_session_id
  let choice := turnChoice cfg allowed heuristic data fresh_session_id
  let existing_session :=
    match memGet memo user_role session_id with
    | some c => if c.user_id == user_id then some c else none
    | none => none
  let rc := run_chat client cfg.DEFAULT_PROVIDER cfg.DEFAULT_MODEL choice.1
    choice.2.1 choice.2.2 (data.message.getD "")
    (existing_session.bind (fun s => s.assistant_id))
    (existing_session.bind (fun s => s.thread_id))
  let callEvents := rc.2.map (fun pm => TurnEvent.externalCall pm.1 pm.2)
  match rc.1 with
  | Except.error e =>
    (TurnResult.upstreamError e, { mongo := none, memory := memo }, callEvents)
  | Except.ok out =>
    let ra := out.1
    let rt := out.2.1
    let mem2 := store_session_memory memo user_role user_id
      session_id (turnSessionTitle data) now (some ra) (some rt)
    (TurnResult.success out.2.2.1 session_id ra rt out.2.2.2.1
        out.2.2.2.2.1 out.2.2.2.2.2 latency (turnRoutePreset data),
      { mongo := none, memory := mem2 },
      callEvents ++ [TurnEvent.sessionWrite session_id])

/-- Embeds the backboard_chat handler (app.py lines 105-403). External
realities are parameters: the Backboard client oracle, the fresh uuid used
when no session_id is supplied, the clock readings now (taken at line 209
and used for the user message and the session upsert) and now2 (the
assistant message timestamp of line 380), and the measured latency in
milliseconds. The third component is the audit trace of the turn: message
inserts, external add_message calls and session writes, in program order.
The all-or-nothing Mongo state lets the handler's three availability checks
(user message insert at line 211, session upsert at line 340, in-memory
write at line 382) collapse into one case split on st.mongo, carried out in
mongoChatTurn/memChatTurn. -/
def backboard_chat {ε : Type} (cfg : RoutingConfig) (allowed : AllowList)
    (heuristic : String → RouteContext → String × String × String)
    (client : AssistantClient ε) (api_key : Option String)
    (fresh_session_id : String) (now now2 latency : Nat)
    (st : AppState) (data : ChatRequestData) :
    TurnResult ε × AppState × List TurnEvent :=
  if ¬ truthyOpt data.user_id then (TurnResult.missingUserId, st, [])
  else if ¬ truthyOpt api_key then (TurnResult.missingApiKey, st, [])
  else if ¬ allowedPair allowed
      (turnChoice cfg allowed heuristic data fresh_session_id).1
      (turnChoice cfg allowed heuristic data fresh_session_id).2.1 then
    (TurnResult.unsupportedPair, st, [])
  else
    match st.mongo with
    | some ms => mongoChatTurn cfg allowed heuristic client fresh_session_id
        now now2 latency ms st.memory data
    | none => memChatTurn cfg allowed heuristic client fresh_session_id
        now now2 latency st.memory data

/-- Example routing configuration used in concrete witnesses. -/
def cfgEx : RoutingConfig :=
  { DEFAULT_PROVIDER := "openai", DEFAULT_MODEL := "gpt-4o",
    FAST_PROVIDER := "groq", FAST_MODEL := "llama-3.1-8b-instant",
    LOGIC_PROVIDER := "anthropic", LOGIC_MODEL := "claude-sonnet-4" }

/-- Example heuristic standing in for route_llm_for_message in witnesses. -/
def heuristicEx : String → RouteContext → String × String × String :=
  fun _ _ => ("openai", "gpt-4o", "bucket=default")

/-- Example route context used in concrete witnesses. -/
def ctxEx : RouteContext :=
  { lecture_id := none, video_title := none, title := none, session_id := "sid-1" }

/-- Example manual-mode request whose provider and model are not in
normalized form. -/
def reqManualEx : ChatRequestData :=
  { route_mode := some "manual", provider := some "OpenAI",
    model := some " gpt-4o ", message := some "hi" }

/-- Example allow-list used in concrete witnesses. -/
def allowedEx : AllowList :=
  [("openai", ["gpt-4o", "gpt-4o-mini"]),
   ("anthropic", ["claude-sonnet-4"]),
   ("groq", ["llama-3.1-8b-instant"])]

/-- Oracle client for witnesses: add_message fails for provider "badprov"
and succeeds with content "hello" otherwise. -/
def clientFailEx : AssistantClient String :=
  { new_assistant_id := "asst-1", new_thread_id := "thr-1",
    add_message := fun _ _ pr _ =>
      if pr = "badprov" then Except.error "boom" else Except.ok "hello" }

/-- An in-memory store with 51 sessions of one user under the student role. -/
def memManyEx : MemStore :=
  [("student", (List.range 51).map (fun i =>
    (Nat.repr i,
      ({ user_id := "u1", user_role := some "student", session_id := Nat.repr i,
         title := "t", created_at := none, updated_at := i,
         assistant_id := none, thread_id := none } : SessionDoc))))]

/-- A message of user u1, for concrete inputs. -/
def msgEx : MessageDoc :=
  { user_id := "u1"
    user_role := "student"
    session_id := "s1"
    role := "user"
    content := "hi"
    provider := "openai"
    model := "gpt-4o"
    requested_provider := none
    requested_model := none
    route_mode := "auto"
    route_preset := "auto"
    route_reason := "bucket=default"
    response_time_ms := none
    assistant_id := none
    thread_id := none
    timestamp := 1 }

/-- A chat database holding that one message. -/
def dbOneMsgEx : ChatDb :=
  { chat_sessions := [], chat_messages := [msgEx] }

/-- A stored session document of user u1 in session s1. -/
def sessEx : SessionDoc :=
  { user_id := "u1"
    user_role := some "student"
    session_id := "s1"
    title := "t"
    created_at := some 1
    updated_at := 1
    assistant_id := none
    thread_id := none }

/-- A Mongo state whose student database holds exactly session s1 of u1 and
one of its messages. -/
def msDeleteEx : MongoState :=
  { student := { chat_sessions := [sessEx], chat_messages := [msgEx] }
    instructor := { chat_sessions := [], chat_messages := [] } }

/-- An in-memory store holding session s1 of u1 under the student role. -/
def memDeleteEx : MemStore := [("student", [("s1", sessEx)])]

/-- The handle invariant of a stored session: the assistant handle and the
thread handle are either both absent or both present. -/
def sessionHandlesOk (s : SessionDoc) : Prop :=
  s.assistant_id.isSome = s.thread_id.isSome

/-- The handle invariant over a whole storage state: every session stored in
either Mongo role database, and every session reachable in the in-memory
store, satisfies sessionHandlesOk. -/
def handlesInvariant (st : AppState) : Prop :=
  (∀ ms, st.mongo = some ms →
    (∀ s ∈ ms.student.chat_sessions, sessionHandlesOk s) ∧
    (∀ s ∈ ms.instructor.chat_sessions, sessionHandlesOk s)) ∧
  (∀ role sid d, memGet st.memory role sid = some d → sessionHandlesOk d)

/-- Oracle client for witnesses whose add_message always succeeds. -/
def clientOkEx : AssistantClient String :=
  { new_assistant_id := "asst-1", new_thread_id := "thr-1",
    add_message := fun _ _ _ _ => Except.ok "hello" }

/-- A well-formed chat request of user u1 using the fastest preset. -/
def reqChatEx : ChatRequestData :=
  { user_id := some "u1", message := some "hi", route_preset := some "fastest" }

/-- The empty storage state of a process without MongoDB. -/
def emptyStateEx : AppState := { mongo := none, memory := [] }

/-- C10: a missing role value, or any role string whose stripped lowercased
form is neither "student" nor "instructor", is silently coerced to "student"
and the operation targets the student namespace; the request is never
rejected for a bad role. -/
theorem C10_role_coercion :
    resolve_chat_role none = "student" ∧
    (get_chat_db_role none).1 = RoleNamespace.student ∧
    ∀ s : String, pyLower (pyStrip s) ≠ "student" →
      pyLower (pyStrip s) ≠ "instructor" →
      resolve_chat_role (some s) = "student" ∧
      (get_chat_db_role (some s)).1 = RoleNamespace.student := by
  refine ⟨by decide, by decide, ?_⟩
  intro s h1 h2
  by_cases hs : s = ""
  · subst hs; exact ⟨by decide, by decide⟩
  · have hor : pyOr (some s) "student" = s := by simp [pyOr, hs]
    have hrole : resolve_chat_role (some s) = "student" := by
      unfold resolve_chat_role
      rw [hor]
      simp [h1, h2]
    refine ⟨hrole, ?_⟩
    unfold get_chat_db_role
    rw [hrole]
    decide

/-- Witness for C10 at the concrete role string " TEACHER ". -/
theorem C10_role_coercion_witness :
    resolve_chat_role (some " TEACHER ") = "student" ∧
    (get_chat_db_role (some " TEACHER ")).1 = RoleNamespace.student :=
  C10_role_coercion.2.2 " TEACHER " (by decide) (by decide)

/-- C2 counterexample: in manual mode with requested pair
("OpenAI", " gpt-4o "), the selection does not return the pair verbatim:
the provider is stripped and lowercased and the model stripped
(app.py lines 146-151), yielding ("openai", "gpt-4o"). -/
theorem C2_counterexample :
    routeSelect cfgEx heuristicEx reqManualEx "sid-1" =
      ("openai", "gpt-4o", "bucket=manual") ∧
    routeSelect cfgEx heuristicEx reqManualEx "sid-1" ≠
      ("OpenAI", " gpt-4o ", "bucket=manual") := by
  constructor <;> decide

/-- C2 amended: first-match-wins decision order of the selection chain, with
the one correction that a manual pair is not used verbatim: the provider is
stripped and lowercased and the model stripped. (1) manual mode with both
requested fields truthy returns the normalized requested pair with reason
"bucket=manual"; otherwise (2) preset "fastest" yields the fast pair, (3)
preset "logical" yields the logical pair, (4) presets "everyday"/"artistic"
yield the default pair with the preset named in the reason, and preset
"auto" falls through to the heuristic; any raw preset outside the five known
values is coerced to "auto" and never rejected. -/
theorem C2_route_decision_order (cfg : RoutingConfig)
    (h : String → RouteContext → String × String × String)
    (mode preset : String) (rp rm : Option String)
    (msg : String) (ctx : RouteContext) :
    (mode = "manual" → truthyOpt rp → truthyOpt rm →
      selectRoute cfg h mode preset rp rm msg ctx =
        (pyLower (pyStrip (rp.getD "")), pyStrip (rm.getD ""), "bucket=manual")) ∧
    (¬ (mode = "manual" ∧ truthyOpt rp ∧ truthyOpt rm) →
      (preset = "fastest" →
        selectRoute cfg h mode preset rp rm msg ctx =
          (cfg.FAST_PROVIDER, cfg.FAST_MODEL, "bucket=fast_preset")) ∧
      (preset = "logical" →
        selectRoute cfg h mode preset rp rm msg ctx =
          (cfg.LOGIC_PROVIDER, cfg.LOGIC_MODEL, "bucket=logical_preset")) ∧
      (preset = "everyday" ∨ preset = "artistic" →
        selectRoute cfg h mode preset rp rm msg ctx =
          (cfg.DEFAULT_PROVIDER, cfg.DEFAULT_MODEL,
            "bucket=" ++ preset ++ "_preset")) ∧
      (preset = "auto" →
        selectRoute cfg h mode preset rp rm msg ctx = h msg ctx)) ∧
    (∀ raw : String,
      raw ∉ ["auto", "fastest", "logical", "everyday", "artistic"] →
      coercePreset raw = "auto") := by
  refine ⟨?_, ?_, ?_⟩
  · intro h1 h2 h3
    unfold selectRoute
    rw [if_pos ⟨h1, h2, h3⟩]
  · intro hman
    refine ⟨?_, ?_, ?_, ?_⟩
    · intro hp
      subst hp
      unfold selectRoute
      rw [if_neg hman, if_pos rfl]
    · intro hp
      subst hp
      unfold selectRoute
      rw [if_neg hman, if_neg (by decide), if_pos rfl]
    · intro hp
      rcases hp with hp | hp <;> subst hp <;>
        · unfold selectRoute
          rw [if_neg hman, if_neg (by decide), if_neg (by decide),
            if_pos (by decide)]
    · intro hp
      subst hp
      unfold selectRoute
      rw [if_neg hman, if_neg (by decide), if_neg (by decide),
        if_neg (by decide)]
  · intro raw hraw
    unfold coercePreset
    rw [if_neg (by simpa using hraw)]

/-- Witness for the amended C2: manual mode with the non-normalized pair
("OpenAI", " gpt-4o ") yields the normalized pair, and the bogus preset
"creative" is coerced to "auto". -/
theorem C2_route_decision_order_witness :
    selectRoute cfgEx heuristicEx "manual" "auto" (some "OpenAI")
      (some " gpt-4o ") "hi" ctxEx = ("openai", "gpt-4o", "bucket=manual") ∧
    coercePreset "creative" = "auto" := by
  have h := (C2_route_decision_order cfgEx heuristicEx "manual" "auto"
    (some "OpenAI") (some " gpt-4o ") "hi" ctxEx).1 rfl (by decide) (by decide)
  refine ⟨?_, ?_⟩
  · rw [h]; decide
  · exact (C2_route_decision_order cfgEx heuristicEx "manual" "auto"
      (some "OpenAI") (some " gpt-4o ") "hi" ctxEx).2.2 "creative" (by decide)

/-- C3: when the selected pair is not allow-listed, validation substitutes
the configured default pair and the combined reason carries the
";fallback_reason=" annotation; validation never raises and, as long as the
default pair is allow-listed, its output is always an allow-listed pair. -/
theorem C3_validate_fallback (allowed : AllowList) (dp dm p m reason : String)
    (hdef : allowedPair allowed dp dm = true)
    (hbad : allowedPair allowed p m = false) :
    validate_llm_choice p m allowed dp dm =
      (dp, dm, some ("fallback_reason=unsupported " ++ p ++ ":" ++ m)) ∧
    applyNote reason (validate_llm_choice p m allowed dp dm).2.2 =
      reason ++ ";" ++ ("fallback_reason=unsupported " ++ p ++ ":" ++ m) ∧
    ∀ p' m' : String,
      allowedPair allowed (validate_llm_choice p' m' allowed dp dm).1
        (validate_llm_choice p' m' allowed dp dm).2.1 = true := by
  have h1 : validate_llm_choice p m allowed dp dm =
      (dp, dm, some ("fallback_reason=unsupported " ++ p ++ ":" ++ m)) := by
    unfold validate_llm_choice
    rw [if_neg (by simp [hbad])]
  refine ⟨h1, ?_, ?_⟩
  · rw [h1]
    rfl
  · intro p' m'
    unfold validate_llm_choice
    split
    · next hc => simpa using hc
    · exact hdef

/-- Witness for C3 at a concrete non-allow-listed pair. -/
theorem C3_validate_fallback_witness :
    validate_llm_choice "badprov" "badmodel" allowedEx "openai" "gpt-4o" =
      ("openai", "gpt-4o",
        some "fallback_reason=unsupported badprov:badmodel") ∧
    applyNote "bucket=manual"
      (validate_llm_choice "badprov" "badmodel" allowedEx "openai" "gpt-4o").2.2 =
      "bucket=manual;fallback_reason=unsupported badprov:badmodel" := by
  have h := C3_validate_fallback allowedEx "openai" "gpt-4o" "badprov"
    "badmodel" "bucket=manual" (by decide) (by decide)
  refine ⟨?_, ?_⟩
  · rw [h.1]
    rfl
  · rw [h.2.1]
    rfl

/-- C1: the run_chat fallback policy. If the add_message call with the routed
pair fails: when the routed pair differs from the default pair, exactly one
retry with the default pair is made (the call list is exactly routed then
default), a successful retry returns the original reason augmented with
";runtime_fallback_from=provider:model", and a failed retry propagates its
error; when the routed pair equals the default pair, the failure propagates
after exactly one call; and in every case at most two calls (at most one
fallback attempt) are made. -/
theorem C1_runtime_fallback {ε : Type} (client : AssistantClient ε)
    (dp dm p m reason msg : String) (aid tid : Option String) (e : ε)
    (hfail : client.add_message (resolve_handles client aid tid).2 msg p m =
      Except.error e) :
    ((p, m) ≠ (dp, dm) →
      (run_chat client dp dm p m reason msg aid tid).2 = [(p, m), (dp, dm)] ∧
      (∀ resp, client.add_message (resolve_handles client aid tid).2 msg dp dm =
          Except.ok resp →
        (run_chat client dp dm p m reason msg aid tid).1 =
          Except.ok ((resolve_handles client aid tid).1,
            (resolve_handles client aid tid).2, resp, dp, dm,
            reason ++ ";runtime_fallback_from=" ++ p ++ ":" ++ m)) ∧
      (∀ e2, client.add_message (resolve_handles client aid tid).2 msg dp dm =
          Except.error e2 →
        (run_chat client dp dm p m reason msg aid tid).1 = Except.error e2)) ∧
    ((p, m) = (dp, dm) →
      (run_chat client dp dm p m reason msg aid tid).1 = Except.error e ∧
      (run_chat client dp dm p m reason msg aid tid).2 = [(p, m)]) ∧
    (run_chat client dp dm p m reason msg aid tid).2.length ≤ 2 := by
  refine ⟨?_, ?_, ?_⟩
  · intro hne
    have hcond : ¬ (p = dp ∧ m = dm) := by
      intro hc
      exact hne (by rw [hc.1, hc.2])
    refine ⟨?_, ?_, ?_⟩
    · cases hsec : client.add_message (resolve_handles client aid tid).2 msg dp dm with
      | ok resp => simp [run_chat, hfail, hcond, hsec]
      | error e2 => simp [run_chat, hfail, hcond, hsec]
    · intro resp hok
      simp [run_chat, hfail, hcond, hok]
    · intro e2 herr
      simp [run_chat, hfail, hcond, herr]
  · intro heq
    have h1 : p = dp := congrArg Prod.fst heq
    have h2 : m = dm := congrArg Prod.snd heq
    subst h1
    subst h2
    constructor <;> simp [run_chat, hfail]
  · cases hfirst : client.add_message (resolve_handles client aid tid).2 msg p m with
    | ok resp => simp [run_chat, hfirst]
    | error e1 =>
      by_cases hc : p = dp ∧ m = dm
      · obtain ⟨hc1, hc2⟩ := hc
        subst hc1
        subst hc2
        simp [run_chat, hfirst]
      · cases hsec : client.add_message (resolve_handles client aid tid).2 msg dp dm with
        | ok r => simp [run_chat, hfirst, hc, hsec]
        | error e2 => simp [run_chat, hfirst, hc, hsec]

/-- Witness for C1: with a failing routed pair different from the default,
run_chat makes exactly the two calls routed-then-default and returns the
fallback-annotated reason. -/
theorem C1_runtime_fallback_witness :
    (run_chat clientFailEx "openai" "gpt-4o" "badprov" "x" "bucket=manual"
      "hi" none none).2 = [("badprov", "x"), ("openai", "gpt-4o")] ∧
    (run_chat clientFailEx "openai" "gpt-4o" "badprov" "x" "bucket=manual"
      "hi" none none).1 =
      Except.ok ("asst-1", "thr-1", "hello", "openai", "gpt-4o",
        "bucket=manual;runtime_fallback_from=badprov:x") := by
  have h := (C1_runtime_fallback clientFailEx "openai" "gpt-4o" "badprov" "x"
    "bucket=manual" "hi" none none "boom" rfl).1 (by decide)
  refine ⟨h.1, ?_⟩
  rw [h.2.1 "hello" rfl]
  rfl

/-- Helper: members of mongoLimit come from the base list. -/
theorem mem_mongoLimit {l : List α} {x : α} (n : Nat) (h : x ∈ mongoLimit n l) :
    x ∈ l := by
  unfold mongoLimit at h
  split at h
  · exact h
  · exact List.mem_of_mem_take h

/-- Helper: mongoLimit of a sorted list is sorted. -/
theorem sorted_mongoLimit {r : α → α → Prop} {l : List α} (n : Nat)
    (h : List.Sorted r l) : List.Sorted r (mongoLimit n l) := by
  unfold mongoLimit
  split
  · exact h
  · exact List.Pairwise.sublist (List.take_sublist _ _) h

/-- Helper: a positive mongoLimit caps the length. -/
theorem length_mongoLimit_le {l : List α} {n : Nat} (h : n ≠ 0) :
    (mongoLimit n l).length ≤ n := by
  unfold mongoLimit
  rw [if_neg h, List.length_take]
  exact Nat.min_le_left _ _

/-- C6 amended: ListSessions on the Mongo backend returns the user's sessions
sorted by updated_at descending and capped at 50 entries; the in-memory
backend returns the user's session summaries sorted by updated_at descending
but applies NO cap: its result is a permutation of all of the user's stored
summaries, however many there are. -/
theorem C6_list_sessions (db : ChatDb) (mem : MemStore) (role uid : String) :
    (list_sessions_mongo db uid).length ≤ 50 ∧
    List.Sorted updatedDesc (list_sessions_mongo db uid) ∧
    (∀ s ∈ list_sessions_mongo db uid, s.user_id = uid) ∧
    List.Sorted summaryUpdatedDesc (list_sessions_memory mem role uid) ∧
    (list_sessions_memory mem role uid).Perm (memUserSummaries mem role uid) := by
  refine ⟨?_, ?_, ?_, ?_, ?_⟩
  · exact length_mongoLimit_le (by decide)
  · exact sorted_mongoLimit _ (List.sorted_insertionSort updatedDesc _)
  · intro s hs
    have h1 := mem_mongoLimit 50 hs
    rw [List.mem_insertionSort] at h1
    have h2 := List.mem_filter.mp h1
    simpa using h2.2
  · exact List.sorted_insertionSort summaryUpdatedDesc _
  · exact List.perm_insertionSort summaryUpdatedDesc _

/-- C6 counterexample: the in-memory branch of ListSessions applies no cap of
50 entries: with 51 stored sessions of the user it returns 51 summaries,
while the claim bounds both backends to at most 50. -/
theorem C6_counterexample :
    ¬ ((list_sessions_memory memManyEx "student" "u1").length ≤ 50) := by decide

/-- C7 amended: a history page with limit at least 1 holds at most limit
messages; every page is in ascending timestamp order; but a limit of 0 is
Mongo's no-limit, so it returns everything after the skip rather than at
most zero messages. -/
theorem C7_history_page (db : ChatDb) (uid : String) (sid : Option String)
    (limit skip : Nat) :
    (1 ≤ limit → (history_page db uid sid limit skip).length ≤ limit) ∧
    List.Sorted timestampAsc (history_page db uid sid limit skip) ∧
    (history_page db uid sid 0 skip).length =
      (historyQuery db uid sid).length - skip := by
  refine ⟨?_, ?_, ?_⟩
  · intro hpos
    unfold history_page
    rw [List.length_reverse]
    exact length_mongoLimit_le (Nat.one_le_iff_ne_zero.mp hpos)
  · unfold history_page
    rw [List.Sorted, List.pairwise_reverse]
    have hdesc : List.Sorted timestampDesc
        (mongoLimit limit
          ((List.insertionSort timestampDesc (historyQuery db uid sid)).drop skip)) :=
      sorted_mongoLimit _ (List.Pairwise.sublist (List.drop_sublist _ _)
        (List.sorted_insertionSort timestampDesc _))
    exact hdesc.imp (fun h => h)
  · unfold history_page
    rw [List.length_reverse]
    unfold mongoLimit
    rw [if_pos rfl, List.length_drop,
      (List.perm_insertionSort timestampDesc (historyQuery db uid sid)).length_eq]

/-- Witness for the amended C7 at limit 1 on a one-message database. -/
theorem C7_history_page_witness :
    (history_page dbOneMsgEx "u1" none 1 0).length ≤ 1 ∧
    List.Sorted timestampAsc (history_page dbOneMsgEx "u1" none 1 0) :=
  ⟨(C7_history_page dbOneMsgEx "u1" none 1 0).1 (by decide),
   (C7_history_page dbOneMsgEx "u1" none 1 0).2.1⟩

/-- C7 counterexample: with limit 0 the Mongo cursor applies no limit, so the
page holds every matching message (here one) instead of at most zero. -/
theorem C7_counterexample :
    ¬ ((history_page dbOneMsgEx "u1" none 0 0).length ≤ 0) := by decide

/-- Helper: find? past an appended suffix when the prefix has no match. -/
theorem find?_append_none {p : α → Bool} {l : List α} (l2 : List α)
    (h : l.find? p = none) : (l ++ l2).find? p = l2.find? p := by
  rw [List.find?_append, h, Option.none_or]

/-- Helper: find? after updateFirst, when the update function preserves the
predicate, returns the updated first match. -/
theorem find?_updateFirst {p : α → Bool} (f : α → α)
    (hpf : ∀ a, p a = true → p (f a) = true) :
    ∀ l : List α, (updateFirst p f l).find? p = (l.find? p).map f := by
  intro l
  induction l with
  | nil => rfl
  | cons a l ih =>
    cases hpa : p a with
    | true =>
      rw [updateFirst, if_pos hpa, List.find?_cons_of_pos _ (hpf a hpa),
        List.find?_cons_of_pos _ hpa]
      rfl
    | false =>
      rw [updateFirst, if_neg (by simp [hpa]),
        List.find?_cons_of_neg _ (by simp [hpa]),
        List.find?_cons_of_neg _ (by simp [hpa]), ih]

/-- Helper: sessionMatches is preserved by the upsert update function, which
does not touch user_id or session_id. -/
theorem sessionMatches_upsertSet (uid sid : String) (now : Nat) (title : String)
    (aid tid : Option String) (s : SessionDoc)
    (h : sessionMatches uid sid s = true) :
    sessionMatches uid sid (upsertSet now title aid tid s) = true := h

/-- Helper: looking up the key just written in an association list. -/
theorem alistGet_alistSet_self (m : List (String × α)) (k : String) (v : α) :
    alistGet (alistSet m k v) k = some v := by
  induction m with
  | nil => simp [alistSet, alistGet, List.find?]
  | cons e rest ih =>
    cases h : e.1 == k with
    | true => simp [alistSet, h, alistGet, List.find?]
    | false =>
      simp only [alistSet, h, Bool.false_eq_true, if_neg, ite_false]
      simpa [alistGet, List.find?, h] using ih

/-- Helper: looking up the session just written in the in-memory store. -/
theorem memGet_memSet (mem : MemStore) (role sid : String) (d : SessionDoc) :
    memGet (memSet mem role sid d) role sid = some d := by
  unfold memGet memSet
  rw [alistGet_alistSet_self]
  exact alistGet_alistSet_self _ _ _

/-- C5: title preservation on both backends. Starting from a store in which
the session does not yet exist, an upsert with a non-empty title stores that
title, and a subsequent per-turn upsert whose supplied title is empty or the
default "Untitled" leaves the stored title unchanged, on the Mongo-backed
store and on the in-memory store alike. -/
theorem C5_title_preservation (sessions : List SessionDoc) (mem : MemStore)
    (role uid sid T T2 : String) (n1 n2 : Nat) (a1 t1 a2 t2 : Option String)
    (hT : T ≠ "") (hT2 : T2 = "" ∨ T2 = "Untitled")
    (hnos : findSessionDoc sessions uid sid = none)
    (hnom : memGet mem role sid = none) :
    ((findSessionDoc
        (upsert_session_mongo (upsert_session_mongo sessions uid sid T n1 a1 t1)
          uid sid T2 n2 a2 t2) uid sid).map (fun s => s.title) = some T) ∧
    ((memGet
        (store_session_memory (store_session_memory mem role uid sid T n1 a1 t1)
          role uid sid T2 n2 a2 t2) role sid).map (fun s => s.title) = some T) := by
  have hTwin : pyOr (some T) T2 = T := by simp [pyOr, hT]
  constructor
  · -- Mongo backend
    have h1 : upsert_session_mongo sessions uid sid T n1 a1 t1 =
        sessions ++ [insertedSessionDoc uid sid n1 T a1 t1] := by
      unfold upsert_session_mongo mongoUpsertSession
      rw [hnos]
      simp [pyOr]
    rw [h1]
    have hmatch : sessionMatches uid sid (insertedSessionDoc uid sid n1 T a1 t1) = true := by
      simp [sessionMatches, insertedSessionDoc]
    have h2 : findSessionDoc (sessions ++ [insertedSessionDoc uid sid n1 T a1 t1]) uid sid =
        some (insertedSessionDoc uid sid n1 T a1 t1) := by
      unfold findSessionDoc at hnos ⊢
      rw [find?_append_none _ hnos, List.find?_cons_of_pos _ hmatch]
    unfold upsert_session_mongo mongoUpsertSession
    rw [h2]
    have hti : Option.map (fun s => s.title)
        (some (insertedSessionDoc uid sid n1 T a1 t1)) = some T := rfl
    simp only [hti, hTwin, Option.isSome_some, eq_self_iff_true, if_true]
    unfold findSessionDoc
    rw [find?_updateFirst _ (fun a ha => sessionMatches_upsertSet uid sid n2 T a2 t2 a ha) _]
    unfold findSessionDoc at h2
    rw [h2]
    rfl
  · -- in-memory backend
    have h1 : store_session_memory mem role uid sid T n1 a1 t1 =
        memSet mem role sid (memSessionDoc role uid sid T n1 a1 t1) := by
      unfold store_session_memory
      rw [hnom]
      simp [pyOr]
    rw [h1]
    unfold store_session_memory
    have hui : ((memSessionDoc role uid sid T n1 a1 t1).user_id == uid) = true := by
      simp [memSessionDoc]
    have hti : Option.map (fun s => s.title)
        (some (memSessionDoc role uid sid T n1 a1 t1)) = some T := rfl
    have h2m := memGet_memSet mem role sid (memSessionDoc role uid sid T n1 a1 t1)
    simp only [h2m, hui, eq_self_iff_true, if_true, hti, hTwin]
    rw [memGet_memSet]
    rfl

/-- Witness for C5: concrete two-upsert run on initially empty stores, first
with title "My topic", then with the default "Untitled". -/
theorem C5_title_preservation_witness :
    ((findSessionDoc
        (upsert_session_mongo (upsert_session_mongo [] "u1" "s1" "My topic" 1 none none)
          "u1" "s1" "Untitled" 2 none none) "u1" "s1").map (fun s => s.title) =
      some "My topic") ∧
    ((memGet
        (store_session_memory (store_session_memory [] "student" "u1" "s1" "My topic" 1 none none)
          "student" "u1" "s1" "Untitled" 2 none none) "student" "s1").map
        (fun s => s.title) = some "My topic") :=
  C5_title_preservation [] [] "student" "u1" "s1" "My topic" "Untitled" 1 2
    none none none none (by decide) (Or.inr rfl) rfl rfl

/-- Helper: deleteFirst yields none exactly when find? does. -/
theorem deleteFirst_eq_none {p : α → Bool} :
    ∀ {l : List α}, deleteFirst p l = none ↔ l.find? p = none := by
  intro l
  induction l with
  | nil => simp [deleteFirst, List.find?]
  | cons a l ih =>
    cases hpa : p a with
    | true => simp [deleteFirst, hpa, List.find?]
    | false => simp [deleteFirst, hpa, List.find?, ih]

/-- Helper: removing the first match decrements the match count by one. -/
theorem countP_deleteFirst {p : α → Bool} :
    ∀ {l l' : List α}, deleteFirst p l = some l' →
      l.countP p = l'.countP p + 1 := by
  intro l
  induction l with
  | nil => intro l' h; simp [deleteFirst] at h
  | cons a l ih =>
    intro l' h
    cases hpa : p a with
    | true =>
      rw [deleteFirst, if_pos hpa] at h
      injection h with h
      subst h
      simp [List.countP_cons, hpa]
    | false =>
      rw [deleteFirst, if_neg (by simp [hpa])] at h
      cases hdl : deleteFirst p l with
      | none => rw [hdl] at h; simp at h
      | some l2 =>
        rw [hdl] at h
        simp only [Option.map_some', Option.some.injEq] at h
        subst h
        simp [List.countP_cons, hpa, ih hdl]

/-- Helper: a unique match cannot fail to be deleted. -/
theorem deleteFirst_isSome_of_countP {p : α → Bool} {l : List α}
    (h : l.countP p = 1) : ∃ l', deleteFirst p l = some l' := by
  cases hdl : deleteFirst p l with
  | some l' => exact ⟨l', rfl⟩
  | none =>
    rw [deleteFirst_eq_none, List.find?_eq_none] at hdl
    have h0 : l.countP p = 0 := List.countP_eq_zero.mpr hdl
    omega

/-- Helper: after deleting the unique match, nothing matches any more. -/
theorem find?_after_deleteFirst {p : α → Bool} {l l' : List α}
    (hone : l.countP p = 1) (hdel : deleteFirst p l = some l') :
    l'.find? p = none := by
  have h := countP_deleteFirst hdel
  rw [hone] at h
  have h0 : l'.countP p = 0 := by omega
  rw [List.find?_eq_none]
  intro x hx
  exact (List.countP_eq_zero.mp h0) x hx

/-- Helper: rereading the role database just written. -/
theorem roleDb_setRoleDb (ms : MongoState) (role : String) (db : ChatDb) :
    roleDb (setRoleDb ms role db) role = db := by
  by_cases h : role = "instructor" <;> simp [roleDb, setRoleDb, h]

/-- Helper: a key deleted from an association list no longer resolves. -/
theorem alistGet_alistDel (m : List (String × α)) (k : String) :
    alistGet (alistDel m k) k = none := by
  unfold alistGet alistDel
  rw [Option.map_eq_none']
  rw [List.find?_eq_none]
  intro x hx
  have hx2 := (List.mem_filter.mp hx).2
  simp only [Bool.not_eq_true'] at hx2
  simp [hx2]

/-- Helper: the session popped from the in-memory store no longer resolves. -/
theorem memGet_memDel (mem : MemStore) (role sid : String) :
    memGet (memDel mem role sid) role sid = none := by
  unfold memDel
  cases hag : alistGet mem role with
  | none =>
    unfold memGet
    rw [hag]
  | some m =>
    unfold memGet
    rw [alistGet_alistSet_self]
    exact alistGet_alistDel m sid

/-- C9: DeleteSession semantics. Mongo backend: on a state whose role
database holds exactly one session matching the (user, session) pair, the
delete reports success, afterwards no matching session and no matching
message remains, and a second delete of the same id reports not-found and
leaves the state unchanged; deleting a non-existing id reports not-found
with no state change. In-memory backend: deleting an existing session of
the user removes it and reports success, a second delete reports not-found,
and deleting a non-existing id reports not-found with no state change. -/
theorem C9_delete_session (ms : MongoState) (mem : MemStore)
    (roleParam : Option String) (uid sid : String)
    (huid : uid ≠ "") (hsid : sid ≠ "") :
    (((roleDb ms (resolve_chat_role roleParam)).chat_sessions.countP
        (sessionMatches uid sid) = 1 →
      (delete_chat_session { mongo := some ms, memory := mem } roleParam uid sid).1 =
        DeleteResult.deleted sid ∧
      (∀ db', stateDb (delete_chat_session { mongo := some ms, memory := mem }
          roleParam uid sid).2 (resolve_chat_role roleParam) = some db' →
        db'.chat_sessions.find? (sessionMatches uid sid) = none ∧
        db'.chat_messages.find? (messageMatches uid sid) = none) ∧
      (delete_chat_session (delete_chat_session { mongo := some ms, memory := mem }
          roleParam uid sid).2 roleParam uid sid).1 = DeleteResult.notFound ∧
      (delete_chat_session (delete_chat_session { mongo := some ms, memory := mem }
          roleParam uid sid).2 roleParam uid sid).2 =
        (delete_chat_session { mongo := some ms, memory := mem } roleParam uid sid).2) ∧
     ((roleDb ms (resolve_chat_role roleParam)).chat_sessions.find?
        (sessionMatches uid sid) = none →
      delete_chat_session { mongo := some ms, memory := mem } roleParam uid sid =
        (DeleteResult.notFound, { mongo := some ms, memory := mem }))) ∧
    ((∀ c, memGet mem (resolve_chat_role roleParam) sid = some c → c.user_id = uid →
      (delete_chat_session { mongo := none, memory := mem } roleParam uid sid).1 =
        DeleteResult.deleted sid ∧
      memGet (delete_chat_session { mongo := none, memory := mem }
        roleParam uid sid).2.memory (resolve_chat_role roleParam) sid = none ∧
      (delete_chat_session (delete_chat_session { mongo := none, memory := mem }
          roleParam uid sid).2 roleParam uid sid).1 = DeleteResult.notFound) ∧
     (memGet mem (resolve_chat_role roleParam) sid = none →
      delete_chat_session { mongo := none, memory := mem } roleParam uid sid =
        (DeleteResult.notFound, { mongo := none, memory := mem }))) := by
  have hcond : ¬ (uid = "" ∨ sid = "") := not_or.mpr ⟨huid, hsid⟩
  constructor
  · constructor
    · intro hone
      obtain ⟨sessions2, hdel⟩ := deleteFirst_isSome_of_countP hone
      have hmain : delete_chat_session { mongo := some ms, memory := mem }
          roleParam uid sid =
          (DeleteResult.deleted sid,
            { mongo := some (setRoleDb ms (resolve_chat_role roleParam)
                { chat_sessions := sessions2,
                  chat_messages := (roleDb ms (resolve_chat_role roleParam)).chat_messages.filter
                    (fun m => !(messageMatches uid sid m)) }),
              memory := mem }) := by
        unfold delete_chat_session
        rw [if_neg hcond]
        simp only [hdel]
      rw [hmain]
      refine ⟨rfl, ?_, ?_, ?_⟩
      · intro db' hdb'
        simp only [stateDb, Option.map_some', Option.some.injEq,
          roleDb_setRoleDb] at hdb'
        subst hdb'
        constructor
        · exact find?_after_deleteFirst hone hdel
        · rw [List.find?_eq_none]
          intro x hx
          have hx2 := (List.mem_filter.mp hx).2
          simp only [Bool.not_eq_true'] at hx2
          simp [hx2]
      · unfold delete_chat_session
        rw [if_neg hcond]
        have hnone : deleteFirst (sessionMatches uid sid)
            (roleDb (setRoleDb ms (resolve_chat_role roleParam)
              { chat_sessions := sessions2,
                chat_messages := (roleDb ms (resolve_chat_role roleParam)).chat_messages.filter
                  (fun m => !(messageMatches uid sid m)) })
              (resolve_chat_role roleParam)).chat_sessions = none := by
          rw [roleDb_setRoleDb]
          exact deleteFirst_eq_none.mpr (find?_after_deleteFirst hone hdel)
        simp only [hnone]
      · unfold delete_chat_session
        rw [if_neg hcond]
        have hnone : deleteFirst (sessionMatches uid sid)
            (roleDb (setRoleDb ms (resolve_chat_role roleParam)
              { chat_sessions := sessions2,
                chat_messages := (roleDb ms (resolve_chat_role roleParam)).chat_messages.filter
                  (fun m => !(messageMatches uid sid m)) })
              (resolve_chat_role roleParam)).chat_sessions = none := by
          rw [roleDb_setRoleDb]
          exact deleteFirst_eq_none.mpr (find?_after_deleteFirst hone hdel)
        simp only [hnone]
    · intro hnof
      unfold delete_chat_session
      rw [if_neg hcond]
      simp only [deleteFirst_eq_none.mpr hnof]
  · constructor
    · intro c hc hcu
      have hd : delete_chat_session { mongo := none, memory := mem }
          roleParam uid sid =
          (DeleteResult.deleted sid,
            { mongo := none,
              memory := memDel mem (resolve_chat_role roleParam) sid }) := by
        unfold delete_chat_session
        rw [if_neg hcond]
        simp only [hc]
        rw [if_pos (by simp [hcu])]
      rw [hd]
      refine ⟨rfl, memGet_memDel _ _ _, ?_⟩
      unfold delete_chat_session
      rw [if_neg hcond]
      simp only [memGet_memDel]
    · intro hno
      unfold delete_chat_session
      rw [if_neg hcond]
      simp only [hno]

/-- Witness for C9: a concrete double delete on both backends, succeeding
the first time and reporting not-found the second time. -/
theorem C9_delete_session_witness :
    (delete_chat_session { mongo := some msDeleteEx, memory := memDeleteEx }
      none "u1" "s1").1 = DeleteResult.deleted "s1" ∧
    (delete_chat_session (delete_chat_session
      { mongo := some msDeleteEx, memory := memDeleteEx } none "u1" "s1").2
      none "u1" "s1").1 = DeleteResult.notFound ∧
    (delete_chat_session { mongo := none, memory := memDeleteEx }
      none "u1" "s1").1 = DeleteResult.deleted "s1" ∧
    (delete_chat_session (delete_chat_session
      { mongo := none, memory := memDeleteEx } none "u1" "s1").2
      none "u1" "s1").1 = DeleteResult.notFound := by
  have h := C9_delete_session msDeleteEx memDeleteEx none "u1" "s1"
    (by decide) (by decide)
  have hm := h.1.1 (by decide)
  have hmem := h.2.1 sessEx (by decide) rfl
  exact ⟨hm.1, hm.2.2.1, hmem.1, hmem.2.2⟩

/-- Helper: an element of updateFirst is an old element or an updated old
element. -/
theorem mem_updateFirst {p : α → Bool} {f : α → α} :
    ∀ {l : List α} {s : α}, s ∈ updateFirst p f l →
      s ∈ l ∨ ∃ a, a ∈ l ∧ s = f a := by
  intro l
  induction l with
  | nil => intro s h; simp [updateFirst] at h
  | cons a l ih =>
    intro s h
    by_cases hpa : p a
    · rw [updateFirst, if_pos hpa] at h
      rcases List.mem_cons.mp h with h | h
      · exact Or.inr ⟨a, List.mem_cons_self a l, h⟩
      · exact Or.inl (List.mem_cons_of_mem a h)
    · rw [updateFirst, if_neg hpa] at h
      rcases List.mem_cons.mp h with h | h
      · exact Or.inl (by rw [h]; exact List.mem_cons_self a l)
      · rcases ih h with h2 | ⟨b, hb, hs⟩
        · exact Or.inl (List.mem_cons_of_mem a h2)
        · exact Or.inr ⟨b, List.mem_cons_of_mem a hb, hs⟩

/-- Helper: the per-turn upsert with both handles present preserves the
handle invariant of every stored session. -/
theorem handlesOk_mongoUpsertSession {sessions : List SessionDoc}
    (uid sid : String) (now : Nat) (title : String) (a t : String)
    (hall : ∀ s ∈ sessions, sessionHandlesOk s) :
    ∀ s ∈ mongoUpsertSession sessions uid sid now title (some a) (some t),
      sessionHandlesOk s := by
  intro s hs
  unfold mongoUpsertSession at hs
  split at hs
  · rcases mem_updateFirst hs with h | ⟨b, hb, hsb⟩
    · exact hall s h
    · subst hsb
      rfl
  · rcases List.mem_append.mp hs with h | h
    · exact hall s h
    · simp only [List.mem_singleton] at h
      subst h
      rfl

/-- Helper: a value looked up after an association-list write is the written
value or some previously stored value. -/
theorem alistGet_alistSet_cases {m : List (String × α)} {k k' : String} {v w : α}
    (h : alistGet (alistSet m k v) k' = some w) :
    w = v ∨ alistGet m k' = some w := by
  induction m with
  | nil =>
    unfold alistSet alistGet at h
    cases hk : (k == k') with
    | true => simp [List.find?, hk] at h; exact Or.inl h.symm
    | false => simp [List.find?, hk] at h
  | cons e rest ih =>
    unfold alistSet at h
    by_cases he : (e.1 == k) = true
    · rw [if_pos he] at h
      unfold alistGet at h ⊢
      cases hk : (k == k') with
      | true =>
        simp only [List.find?, hk] at h
        exact Or.inl (by simpa using h.symm)
      | false =>
        simp only [List.find?, hk] at h
        have he' : (e.1 == k') = false := by
          have h1 : e.1 = k := by simpa using he
          subst h1
          exact hk
        simp only [List.find?, he']
        exact Or.inr h
    · rw [if_neg he] at h
      unfold alistGet at h ⊢
      cases hek : (e.1 == k') with
      | true =>
        simp only [List.find?, hek] at h ⊢
        exact Or.inr h
      | false =>
        simp only [List.find?, hek] at h ⊢
        exact ih h

/-- Helper: a session looked up after an in-memory write is the written
document or a document that was already reachable. -/
theorem memGet_memSet_cases {mem : MemStore} {role sid role2 sid2 : String}
    {doc d : SessionDoc}
    (h : memGet (memSet mem role sid doc) role2 sid2 = some d) :
    d = doc ∨ ∃ r s2, memGet mem r s2 = some d := by
  unfold memSet memGet at h
  cases hag : alistGet (alistSet mem role
      (alistSet ((alistGet mem role).getD []) sid doc)) role2 with
  | none => rw [hag] at h; exact absurd h (by simp)
  | some m2 =>
    rw [hag] at h
    rcases alistGet_alistSet_cases hag with hm2 | hm2
    · subst hm2
      rcases alistGet_alistSet_cases h with hd | hd
      · exact Or.inl hd
      · cases hinner : alistGet mem role with
        | none =>
          rw [hinner] at hd
          simp [alistGet, List.find?] at hd
        | some mi =>
          rw [hinner] at hd
          refine Or.inr ⟨role, sid2, ?_⟩
          unfold memGet
          rw [hinner]
          simpa using hd
    · refine Or.inr ⟨role2, sid2, ?_⟩
      unfold memGet
      rw [hm2]
      exact h

/-- Helper: every session of the selected role database satisfies the handle
invariant when both role databases do. -/
theorem handlesOk_roleDb {ms : MongoState} {role : String}
    (hst : ∀ s ∈ ms.student.chat_sessions, sessionHandlesOk s)
    (hin : ∀ s ∈ ms.instructor.chat_sessions, sessionHandlesOk s) :
    ∀ s ∈ (roleDb ms role).chat_sessions, sessionHandlesOk s := by
  by_cases h : role = "instructor" <;> simp only [roleDb, h, if_true, if_false,
    reduceIte] <;> assumption

/-- Helper: replacing one role database whose sessions satisfy the handle
invariant preserves the state-wide invariant. -/
theorem handlesInvariant_set_mongo {ms : MongoState} {memo : MemStore}
    {role : String} {db : ChatDb}
    (hinv : handlesInvariant { mongo := some ms, memory := memo })
    (hdb : ∀ s ∈ db.chat_sessions, sessionHandlesOk s) :
    handlesInvariant { mongo := some (setRoleDb ms role db), memory := memo } := by
  obtain ⟨hm, hmem⟩ := hinv
  obtain ⟨hst, hin⟩ := hm ms rfl
  refine ⟨?_, hmem⟩
  intro ms2 hms2
  injection hms2 with hms2
  subst hms2
  by_cases h : role = "instructor"
  · simp only [setRoleDb, h, if_true, reduceIte]
    exact ⟨hst, hdb⟩
  · simp only [setRoleDb, h, if_false, reduceIte]
    exact ⟨hdb, hin⟩

/-- Helper: writing a session that satisfies the handle invariant into the
in-memory store preserves the state-wide invariant. -/
theorem handlesInvariant_set_memory {memo : MemStore} {mon : Option MongoState}
    {role sid : String} {doc : SessionDoc}
    (hinv : handlesInvariant { mongo := mon, memory := memo })
    (hdoc : sessionHandlesOk doc) :
    handlesInvariant { mongo := mon, memory := memSet memo role sid doc } := by
  obtain ⟨hm, hmem⟩ := hinv
  refine ⟨hm, ?_⟩
  intro r s d hd
  rcases memGet_memSet_cases hd with h | ⟨r2, s2, h⟩
  · subst h; exact hdoc
  · exact hmem r2 s2 d h

/-- Helper: a Mongo-configured chat turn preserves the handle invariant. -/
theorem handlesInvariant_mongoChatTurn {ε : Type} (cfg : RoutingConfig)
    (allowed : AllowList)
    (heuristic : String → RouteContext → String × String × String)
    (client : AssistantClient ε) (fresh : String) (now now2 latency : Nat)
    (ms : MongoState) (memo : MemStore) (data : ChatRequestData)
    (hinv : handlesInvariant { mongo := some ms, memory := memo }) :
    handlesInvariant (mongoChatTurn cfg allowed heuristic client fresh now now2
      latency ms memo data).2.1 := by
  unfold mongoChatTurn
  dsimp only
  split
  · exact handlesInvariant_set_mongo hinv
      (handlesOk_roleDb (hinv.1 ms rfl).1 (hinv.1 ms rfl).2)
  · refine handlesInvariant_set_mongo hinv ?_
    intro s hs
    unfold upsert_session_mongo at hs
    exact handlesOk_mongoUpsertSession _ _ _ _ _ _
      (handlesOk_roleDb (hinv.1 ms rfl).1 (hinv.1 ms rfl).2) s hs

/-- Helper: an in-memory chat turn preserves the handle invariant. -/
theorem handlesInvariant_memChatTurn {ε : Type} (cfg : RoutingConfig)
    (allowed : AllowList)
    (heuristic : String → RouteContext → String × String × String)
    (client : AssistantClient ε) (fresh : String) (now now2 latency : Nat)
    (memo : MemStore) (data : ChatRequestData)
    (hinv : handlesInvariant { mongo := none, memory := memo }) :
    handlesInvariant (memChatTurn cfg allowed heuristic client fresh now now2
      latency memo data).2.1 := by
  unfold memChatTurn
  dsimp only
  split
  · exact hinv
  · exact handlesInvariant_set_memory hinv rfl

/-- C8: the handle invariant. Explicit session creation stores a document
with both handles absent, and both session-writing operations (explicit
creation and the per-turn upsert, which always writes the two freshly
resolved handles together) preserve the state-wide invariant that every
stored session has the two handles either both absent or both present. -/
theorem C8_handle_invariant :
    (∀ (st : AppState) (fresh : String) (now : Nat) (body : ChatRequestData),
      (∀ doc, (create_chat_session st fresh now body).1 = CreateResult.created doc →
        doc.assistant_id = none ∧ doc.thread_id = none) ∧
      (handlesInvariant st → handlesInvariant (create_chat_session st fresh now body).2)) ∧
    (∀ (ε : Type) (cfg : RoutingConfig) (allowed : AllowList)
      (heuristic : String → RouteContext → String × String × String)
      (client : AssistantClient ε) (key : Option String) (fresh : String)
      (now now2 latency : Nat) (st : AppState) (data : ChatRequestData),
      handlesInvariant st →
      handlesInvariant (backboard_chat cfg allowed heuristic client key fresh
        now now2 latency st data).2.1) := by
  constructor
  · intro st fresh now body
    obtain ⟨mon, memo⟩ := st
    constructor
    · intro doc hdoc
      unfold create_chat_session at hdoc
      split at hdoc
      · exact absurd hdoc (by simp)
      · cases mon with
        | some ms =>
          simp only [CreateResult.created.injEq] at hdoc
          subst hdoc
          exact ⟨rfl, rfl⟩
        | none =>
          simp only [CreateResult.created.injEq] at hdoc
          subst hdoc
          exact ⟨rfl, rfl⟩
    · intro hinv
      unfold create_chat_session
      split
      · exact hinv
      · cases mon with
        | some ms =>
          refine handlesInvariant_set_mongo hinv ?_
          intro s hs
          rcases List.mem_append.mp hs with h | h
          · exact handlesOk_roleDb (hinv.1 ms rfl).1 (hinv.1 ms rfl).2 s h
          · simp only [List.mem_singleton] at h
            subst h
            rfl
        | none =>
          exact handlesInvariant_set_memory hinv rfl
  · intro ε cfg allowed heuristic client key fresh now now2 latency st data hinv
    obtain ⟨mon, memo⟩ := st
    unfold backboard_chat
    split
    · exact hinv
    split
    · exact hinv
    split
    · exact hinv
    cases mon with
    | some ms =>
      exact handlesInvariant_mongoChatTurn cfg allowed heuristic client fresh
        now now2 latency ms memo data hinv
    | none =>
      exact handlesInvariant_memChatTurn cfg allowed heuristic client fresh
        now now2 latency memo data hinv

/-- Witness for C8: the explicitly created session carries no handles, and a
concrete successful turn on the empty in-memory state keeps the state-wide
handle invariant. -/
theorem C8_handle_invariant_witness :
    ((create_chat_session emptyStateEx "sf" 1 reqChatEx).1 =
        CreateResult.created
          { user_id := "u1", user_role := some "student", session_id := "sf",
            title := "Untitled", created_at := some 1, updated_at := 1,
            assistant_id := none, thread_id := none } →
      ({ user_id := "u1", user_role := some "student", session_id := "sf",
         title := "Untitled", created_at := some 1, updated_at := 1,
         assistant_id := none, thread_id := none } : SessionDoc).assistant_id = none ∧
      ({ user_id := "u1", user_role := some "student", session_id := "sf",
         title := "Untitled", created_at := some 1, updated_at := 1,
         assistant_id := none, thread_id := none } : SessionDoc).thread_id = none) ∧
    handlesInvariant (backboard_chat cfgEx allowedEx heuristicEx clientOkEx
      (some "k") "sf" 1 2 3 emptyStateEx reqChatEx).2.1 :=
  by
  constructor
  · exact (C8_handle_invariant.1 emptyStateEx "sf" 1 reqChatEx).1 _
  · refine C8_handle_invariant.2 String cfgEx allowedEx heuristicEx clientOkEx
      (some "k") "sf" 1 2 3 emptyStateEx reqChatEx ⟨?_, ?_⟩
    · intro ms h
      exact absurd h (by simp [emptyStateEx])
    · intro r s d h
      simp [emptyStateEx, memGet, alistGet, List.find?] at h

/-- Helper: when the three request guards pass, the turn dispatches to the
Mongo or in-memory body according to storage availability. -/
theorem backboard_chat_run {ε : Type} (cfg : RoutingConfig) (allowed : AllowList)
    (heuristic : String → RouteContext → String × String × String)
    (client : AssistantClient ε) (key : Option String) (fresh : String)
    (now now2 latency : Nat) (st : AppState) (data : ChatRequestData)
    (h1 : truthyOpt data.user_id = true) (h2 : truthyOpt key = true)
    (h3 : allowedPair allowed (turnChoice cfg allowed heuristic data fresh).1
      (turnChoice cfg allowed heuristic data fresh).2.1 = true) :
    backboard_chat cfg allowed heuristic client key fresh now now2 latency st data =
      match st.mongo with
      | some ms => mongoChatTurn cfg allowed heuristic client fresh now now2
          latency ms st.memory data
      | none => memChatTurn cfg allowed heuristic client fresh now now2
          latency st.memory data := by
  unfold backboard_chat
  rw [if_neg (by simp [h1]), if_neg (by simp [h2]), if_neg (by simp [h3])]

/-- Helper: the first event of a Mongo-configured turn is the insertion of
the user message, before any external call. -/
theorem mongoChatTurn_events_head {ε : Type} (cfg : RoutingConfig)
    (allowed : AllowList)
    (heuristic : String → RouteContext → String × String × String)
    (client : AssistantClient ε) (fresh : String) (now now2 latency : Nat)
    (ms : MongoState) (memo : MemStore) (data : ChatRequestData) :
    (mongoChatTurn cfg allowed heuristic client fresh now now2 latency ms memo
      data).2.2.head? =
      some (TurnEvent.insertUserMsg
        (turnUserMsg cfg allowed heuristic data fresh now)) := by
  unfold mongoChatTurn
  dsimp only
  split <;> rfl

/-- Helper: whatever the external client did, the user message document is in
the role database after a Mongo-configured turn. -/
theorem mongoChatTurn_user_msg_mem {ε : Type} (cfg : RoutingConfig)
    (allowed : AllowList)
    (heuristic : String → RouteContext → String × String × String)
    (client : AssistantClient ε) (fresh : String) (now now2 latency : Nat)
    (ms : MongoState) (memo : MemStore) (data : ChatRequestData) :
    turnUserMsg cfg allowed heuristic data fresh now ∈
      stateMessages (mongoChatTurn cfg allowed heuristic client fresh now now2
        latency ms memo data).2.1 (turnUserRole data) := by
  unfold mongoChatTurn
  dsimp only
  split
  · unfold stateMessages
    dsimp only
    rw [roleDb_setRoleDb]
    exact List.mem_append_right _ (List.mem_singleton_self _)
  · unfold stateMessages
    dsimp only
    rw [roleDb_setRoleDb]
    exact List.mem_append_left _
      (List.mem_append_right _ (List.mem_singleton_self _))

/-- Helper: an in-memory turn never emits a user-message insertion event. -/
theorem memChatTurn_no_user_insert {ε : Type} (cfg : RoutingConfig)
    (allowed : AllowList)
    (heuristic : String → RouteContext → String × String × String)
    (client : AssistantClient ε) (fresh : String) (now now2 latency : Nat)
    (memo : MemStore) (data : ChatRequestData) :
    (memChatTurn cfg allowed heuristic client fresh now now2 latency memo
      data).2.2.all (fun ev => !(isUserInsert ev)) = true := by
  unfold memChatTurn
  dsimp only
  split
  · rw [List.all_eq_true]
    intro ev hev
    rw [List.mem_map] at hev
    obtain ⟨pm, hpm, hev⟩ := hev
    rw [← hev]
    rfl
  · rw [List.all_eq_true]
    intro ev hev
    rcases List.mem_append.mp hev with h | h
    · rw [List.mem_map] at h
      obtain ⟨pm, hpm, h⟩ := h
      rw [← h]
      rfl
    · rw [List.mem_singleton] at h
      rw [h]
      rfl

/-- C4 counterexample: a complete, successful chat turn in the in-memory
mode (MongoDB unavailable) records no user message anywhere: the trace holds
no user-message insertion and the state has no message store, contradicting
the claim that on every turn the user message is always recorded. -/
theorem C4_counterexample :
    (backboard_chat cfgEx allowedEx heuristicEx clientOkEx (some "k") "sf" 1 2 3
      emptyStateEx reqChatEx).1 =
      TurnResult.success "hello" "sf" "asst-1" "thr-1" "groq"
        "llama-3.1-8b-instant" "bucket=fast_preset" 3 "fastest" ∧
    (backboard_chat cfgEx allowedEx heuristicEx clientOkEx (some "k") "sf" 1 2 3
      emptyStateEx reqChatEx).2.2.filter isUserInsert = [] ∧
    stateMessages (backboard_chat cfgEx allowedEx heuristicEx clientOkEx
      (some "k") "sf" 1 2 3 emptyStateEx reqChatEx).2.1 "student" = [] := by
  refine ⟨?_, ?_, ?_⟩ <;> decide

/-- C4 amended: when the persistent backend is configured, the user message
document is persisted first (the head of the turn trace, before any external
call) and is present in the role database afterwards whatever the external
client did, including total failure; when only the in-memory backend is
active, no user message is recorded at all. -/
theorem C4_user_message_persisted (ε : Type) (cfg : RoutingConfig)
    (allowed : AllowList)
    (heuristic : String → RouteContext → String × String × String)
    (client : AssistantClient ε) (key : Option String) (fresh : String)
    (now now2 latency : Nat) (ms : MongoState) (memo : MemStore)
    (data : ChatRequestData)
    (h1 : truthyOpt data.user_id = true) (h2 : truthyOpt key = true)
    (h3 : allowedPair allowed (turnChoice cfg allowed heuristic data fresh).1
      (turnChoice cfg allowed heuristic data fresh).2.1 = true) :
    (backboard_chat cfg allowed heuristic client key fresh now now2 latency
        { mongo := some ms, memory := memo } data).2.2.head? =
      some (TurnEvent.insertUserMsg
        (turnUserMsg cfg allowed heuristic data fresh now)) ∧
    turnUserMsg cfg allowed heuristic data fresh now ∈
      stateMessages (backboard_chat cfg allowed heuristic client key fresh now
        now2 latency { mongo := some ms, memory := memo } data).2.1
        (turnUserRole data) ∧
    (backboard_chat cfg allowed heuristic client key fresh now now2 latency
      { mongo := none, memory := memo } data).2.2.all
      (fun ev => !(isUserInsert ev)) = true := by
  rw [backboard_chat_run cfg allowed heuristic client key fresh now now2 latency
    { mongo := some ms, memory := memo } data h1 h2 h3]
  rw [backboard_chat_run cfg allowed heuristic client key fresh now now2 latency
    { mongo := none, memory := memo } data h1 h2 h3]
  exact ⟨mongoChatTurn_events_head cfg allowed heuristic client fresh now now2
      latency ms memo data,
    mongoChatTurn_user_msg_mem cfg allowed heuristic client fresh now now2
      latency ms memo data,
    memChatTurn_no_user_insert cfg allowed heuristic client fresh now now2
      latency memo data⟩

/-- Witness for the amended C4 on a concrete Mongo-configured turn. -/
theorem C4_user_message_persisted_witness :
    (backboard_chat cfgEx allowedEx heuristicEx clientOkEx (some "k") "sf" 1 2 3
        { mongo := some msDeleteEx, memory := [] } reqChatEx).2.2.head? =
      some (TurnEvent.insertUserMsg
        (turnUserMsg cfgEx allowedEx heuristicEx reqChatEx "sf" 1)) ∧
    turnUserMsg cfgEx allowedEx heuristicEx reqChatEx "sf" 1 ∈
      stateMessages (backboard_chat cfgEx allowedEx heuristicEx clientOkEx
        (some "k") "sf" 1 2 3 { mongo := some msDeleteEx, memory := [] }
        reqChatEx).2.1 (turnUserRole reqChatEx) := by
  have h := C4_user_message_persisted String cfgEx allowedEx heuristicEx
    clientOkEx (some "k") "sf" 1 2 3 msDeleteEx [] reqChatEx
    (by decide) (by decide) (by decide)
  exact ⟨h.1, h.2.1⟩

end NoMoreTears
